import Mathlib

/-!
Verification development for the Grreat population-map generator.

The Python sources are embedded shallowly:

* `src/main.py` — CLI validators (`one_plus_power_of_two`, `zero_to_one`,
  `int_at_least`), the TAP configuration post-processing (`process_args`)
  and the population-map loader (`load_population_map`).
* `src/model.py` — SQLModel data model (`PopulationDistribution` with its
  `validate_distribution` hook, `CheckerboardRectDistribution`,
  `PopulationMap`, `PopulationMapCellFactionCount`), namespaced `Model`.

Python conventions used in the embedding: a value that fails to parse is
`none` (Python raises `ValueError` from `int(...)` / `float(...)`);
functions that raise validation errors return `Except String`; Python's
`int` is `ℤ`; Python's arbitrary precision bitwise `&` on integers is
`Int.land`.  Python's `float` is modelled as `PyFloat` (finite values as
rationals plus `nan`, whose ordered comparisons are all `False`) where
the code compares floats — the `zero_to_one` range check — and as plain
`ℚ` where float fields are only stored and copied, never compared.
-/

/-- Error-message prefix used by `one_plus_power_of_two`
(`err_prefix` in the source). -/
def err_pre (arg_name : Option String) : String :=
  match arg_name with
  | some a => "error: argument " ++ a ++ ": "
  | none => ""

/-- Embedding of `main.one_plus_power_of_two`: parse failure (`none`) is the
`ValueError` branch; otherwise the value is rejected when
`value < 3 or (value - 1) & (value - 2) != 0`. -/
def one_plus_power_of_two (s : Option ℤ) (arg_name : Option String) :
    Except String ℤ :=
  match s with
  | none => .error (err_pre arg_name ++ "Value must be an integer.")
  | some value =>
    if value < 3 ∨ Int.land (value - 1) (value - 2) ≠ 0 then
      .error
        (err_pre arg_name ++
          "Value must be one plus a power of two (at least 3).")
    else
      .ok value

/-- Python float values as seen by the range validator: finite values as
rationals, plus `nan`, which `float("nan")` produces from a successful
parse.  Infinities are omitted: like any finite out-of-range value they
are rejected by the check below, so nothing is hidden by leaving them
out. -/
inductive PyFloat where
  | finite (q : ℚ)
  | nan
deriving DecidableEq, Repr

/-- Python `<` on floats: the rational order on finite values; every
ordered comparison involving `nan` returns `False`. -/
def pyLt : PyFloat → PyFloat → Bool
  | .finite a, .finite b => decide (a < b)
  | _, _ => false

/-- Python `>` on floats: the rational order on finite values; every
ordered comparison involving `nan` returns `False`. -/
def pyGt : PyFloat → PyFloat → Bool
  | .finite a, .finite b => decide (a > b)
  | _, _ => false

/-- Embedding of `main.zero_to_one`: parse failure (`none`) is the
`ValueError` branch; otherwise the value is rejected when
`value < 0.0 or value > 1.0` under Python float comparison.  Both
comparisons are `False` for `nan`, which is therefore accepted. -/
def zero_to_one (s : Option PyFloat) : Except String PyFloat :=
  match s with
  | none => .error "Value must be a float."
  | some value =>
    if pyLt value (.finite 0) || pyGt value (.finite 1) then
      .error "Value must be between 0.0 and 1.0 inclusive."
    else
      .ok value

/-- Embedding of `main.int_at_least` (curried validator factory). -/
def int_at_least (min_value : ℤ) (s : Option ℤ) : Except String ℤ :=
  match s with
  | none => .error "Value must be an integer."
  | some value =>
    if value < min_value then
      .error ("Value must be at least " ++ toString min_value ++ ".")
    else
      .ok value

/-- The validator `GrreatConfig.configure` attaches to `--geo-random-steps`:
`type=int_at_least(4)`. -/
def geo_random_steps_validator : Option ℤ → Except String ℤ :=
  int_at_least 4

/-- The validator `GrreatConfig.configure` attaches to
`--geo-neighbor-weight`: `type=zero_to_one`. -/
def geo_neighbor_weight_validator : Option PyFloat → Except String PyFloat :=
  zero_to_one

/-! ### The population-map loader and configuration post-processing -/

/-- Embedding of the `PopulationMap` `TypedDict` of `main.py`. -/
structure PopulationMap where
  width : ℤ
  height : ℤ
  precinct_population : ℤ
  precincts : List (List ℚ)
deriving DecidableEq, Repr

/-- The `try` body of `main.load_population_map`: it merely builds the
constant dict `PopulationMap(width=0, height=0, precinct_population=0,
precincts=[])` (the loading logic is a `TODO` in the source), an expression
that can raise neither `FileNotFoundError` nor `ValueError`, so the body
always succeeds with that value. -/
def load_population_map_body : Except String PopulationMap :=
  .ok { width := 0, height := 0, precinct_population := 0, precincts := [] }

/-- Embedding of `main.load_population_map : Path -> PopulationMap | str`:
the `except` handler formats the caught exception into an error string. -/
def load_population_map (path : String) : Sum PopulationMap String :=
  match load_population_map_body with
  | .ok m => .inl m
  | .error e =>
    .inr ("Error loading population map from " ++ path ++ ": " ++ e)

/-- The fields of `main.GrreatConfig` that `process_args` reads or writes
(plus the remaining numeric parameters, carried through unchanged). -/
structure GrreatConfig where
  world_width : ℤ
  world_height : ℤ
  precinct_population : ℤ
  red_fraction : ℚ
  geo_random_steps : ℤ
  geo_neighbor_weight : ℚ
  num_districts : ℤ
  num_delegates_per_district : ℤ
  load_pop_map : Option String
  precincts : Option (List (List ℚ))
deriving DecidableEq, Repr

/-- Embedding of `main.GrreatConfig.process_args`.  Without `--load-pop-map`
it re-validates `world_width` / `world_height` through
`one_plus_power_of_two` (a failure prints help and exits, modelled as
`.error`).  With `--load-pop-map` it loads the map and copies its
dimensions, population and precincts into the config with no further
validation. -/
def process_args (c : GrreatConfig) : Except String GrreatConfig :=
  match c.load_pop_map with
  | none =>
    match one_plus_power_of_two (some c.world_width) (some "--world-width") with
    | .error e => .error e
    | .ok w =>
      match one_plus_power_of_two (some c.world_height)
          (some "--world-height") with
      | .error e => .error e
      | .ok h => .ok { c with world_width := w, world_height := h }
  | some path =>
    match load_population_map path with
    | .inr e => .error e
    | .inl m =>
      .ok { c with
            world_width := m.width
            world_height := m.height
            precinct_population := m.precinct_population
            precincts := some m.precincts }

/-! ### The data model of `model.py` -/

namespace Model

/-- Embedding of `model.PopulationDistribution` (the three id columns;
`Optional[int]` becomes `Option ℤ`). -/
structure PopulationDistribution where
  id : Option ℤ
  uniform_rect_distribution_id : Option ℤ
  checkerboard_rect_distribution_id : Option ℤ
deriving DecidableEq, Repr

/-- Python truthiness of an `Optional[int]`: `None` and `0` are falsy,
every other integer is truthy. -/
def optionIntTruthy : Option ℤ → Bool
  | none => false
  | some v => decide (v ≠ 0)

/-- The `num_set_ids` sum computed inside
`PopulationDistribution.validate_distribution`:
`sum(1 if i else 0 for i in (uniform_id, checkerboard_id))`. -/
def num_set_ids (d : PopulationDistribution) : ℕ :=
  (if optionIntTruthy d.uniform_rect_distribution_id then 1 else 0) +
    (if optionIntTruthy d.checkerboard_rect_distribution_id then 1 else 0)

/-- Embedding of `model.PopulationDistribution.validate_distribution`
(the `@model_validator(mode="after")` hook): raises unless exactly one
distribution id is truthy. -/
def validate_distribution (d : PopulationDistribution) :
    Except String Unit :=
  if num_set_ids d ≠ 1 then
    .error "Exactly one distribution type id must be set."
  else
    .ok ()

/-- Embedding of `model.CheckerboardRectDistribution` (fields only; the
class declares no validator). -/
structure CheckerboardRectDistribution where
  id : Option ℤ
  even_precinct_population : Option ℤ
  odd_precinct_population : Option ℤ
  num_block_width : ℤ
  num_block_height : ℤ
  block_width : ℤ
  block_height : ℤ
deriving DecidableEq, Repr

/-- Embedding of `model.PopulationMapCellFactionCount`: the coordinate
columns are `float` in the source (cell centers initially), modelled as
`ℚ`; the model declares no validator and no bounds. -/
structure PopulationMapCellFactionCount where
  x : ℚ
  y : ℚ
  population_map_id : ℤ
  faction_id : ℤ
  count : ℤ
deriving DecidableEq, Repr

/-- Embedding of `model.PopulationMap` (`creation_time`, a `datetime`,
is modelled as an integer timestamp; it is never inspected). -/
structure PopulationMap where
  id : Option ℤ
  creation_time : ℤ
  distribution_id : Option ℤ
  faction_counts : List PopulationMapCellFactionCount
deriving DecidableEq, Repr

end Model

/-! ### Strategy operations modelled from the spec

Generation and construct-time strategy validation are unimplemented in the
source (`main.load_population_map` is a `TODO` stub and no generate
function exists); only the data declarations live in `model.py`.  The
following definitions are therefore modelled from the spec. -/

/-- Modelled from the spec: the Uniform strategy's per-cell counts
(§4.2) — missing from src, which has no generate code.  "every cell
receives `round(precinct_population * red_fraction)` voters of the
majority faction and the remainder in the other faction(s)". -/
def uniformCellCounts (precinct_population : ℕ) (red_fraction : ℚ) :
    ℤ × ℤ :=
  (round ((precinct_population : ℚ) * red_fraction),
    (precinct_population : ℤ) -
      round ((precinct_population : ℚ) * red_fraction))

/-- Modelled from the spec: the Stochastic-Geographic finalize step
(§4.4 step 3) — missing from src.  The majority count is "clamped to
`[0, precinct_population]`" during diffusion, and finalize sets "each
cell's minority-faction count to `precinct_population - majority_count`".
-/
def stochasticFinalizeCell (precinct_population : ℕ) (majority : ℤ) :
    ℤ × ℤ :=
  (min (max majority 0) (precinct_population : ℤ),
    (precinct_population : ℤ) - min (max majority 0) (precinct_population : ℤ))

/-- Modelled from the spec: the Checkerboard strategy's per-cell faction
counts (§4.3) — missing from src.  Blocks are `block_width × block_height`
cells; "Blocks alternate in row-major order between two fixed
per-precinct populations, `even_population` for blocks whose
`(block_row + block_col)` is even and `odd_population` where it is odd",
each "a single faction-total distribution applied uniformly within the
block", here the two faction-count lists. -/
def checkerboardCellCounts (evenCounts oddCounts : List ℤ)
    (block_width block_height : ℕ) (x y : ℕ) : List ℤ :=
  if (y / block_height + x / block_width) % 2 = 0 then evenCounts
  else oddCounts

/-- Modelled from the spec: the per-precinct population configured for a
checkerboard cell (§4.3) — `even_population` in even blocks,
`odd_population` in odd blocks. -/
def checkerboardCellPopulation (even_population odd_population : ℤ)
    (block_width block_height : ℕ) (x y : ℕ) : ℤ :=
  if (y / block_height + x / block_width) % 2 = 0 then even_population
  else odd_population

/-- Modelled from the spec: a whole checkerboard-generated map on a
`width × height` grid: every cell `(x, y)` paired with its faction
counts. -/
def checkerboardGenerate (evenCounts oddCounts : List ℤ)
    (block_width block_height width height : ℕ) :
    List (ℕ × ℕ × List ℤ) :=
  (List.range height).flatMap fun y =>
    (List.range width).map fun x =>
      (x, y,
        checkerboardCellCounts evenCounts oddCounts block_width
          block_height x y)

/-- Modelled from the spec: the Checkerboard strategy's construct-time
tiling validation (§4.3) — missing from src, which holds only the
`CheckerboardRectDistribution` column declarations.  "Fails with
`InvalidBlockLayout` if `num_block_width * block_width ≠ width` or
`num_block_height * block_height ≠ height`". -/
def checkerboard_construct (width height : ℤ)
    (d : Model.CheckerboardRectDistribution) :
    Except String Model.CheckerboardRectDistribution :=
  if d.num_block_width * d.block_width ≠ width ∨
      d.num_block_height * d.block_height ≠ height then
    .error "InvalidBlockLayout"
  else
    .ok d

/-! ### Concrete fixtures used by the claim theorems -/

/-- A distribution with `uniform_rect_distribution_id = 0` (an integer that
is present but falsy) and no checkerboard id. -/
def zeroIdDistribution : Model.PopulationDistribution :=
  { id := none
    uniform_rect_distribution_id := some 0
    checkerboard_rect_distribution_id := none }

/-- A cell placed at the center of the grid square `[0,1] × [0,1]` — the
placement the `PopulationMapCellFactionCount` docstring describes
("the x and y coordinates are of the center of a grid square"). -/
def centerCell : Model.PopulationMapCellFactionCount :=
  { x := 1 / 2, y := 1 / 2, population_map_id := 1, faction_id := 0,
    count := 0 }

/-- A model population map holding `centerCell`; `model.py` declares no
validator on `PopulationMap` or its cells, so this is a legal model value.
-/
def centerCellMap : Model.PopulationMap :=
  { id := some 1, creation_time := 0, distribution_id := none,
    faction_counts := [centerCell] }

/-- A configuration that requests `--load-pop-map map.json` (world
dimensions valid before processing, to show the load path overwrites
them). -/
def sampleLoadConfig : GrreatConfig :=
  { world_width := 9
    world_height := 9
    precinct_population := 1000
    red_fraction := 1 / 2
    geo_random_steps := 4
    geo_neighbor_weight := 1 / 2
    num_districts := 10
    num_delegates_per_district := 1
    load_pop_map := some "map.json"
    precincts := none }

/-! ### Arithmetic facts about the `(n) & (n - 1)` power-of-two test -/

theorem int_land_ofNat (a b : ℕ) :
    Int.land (a : ℤ) (b : ℤ) = ((a &&& b : ℕ) : ℤ) := rfl

theorem pow_two_land_pred (k : ℕ) : (2 ^ k) &&& (2 ^ k - 1) = 0 := by
  apply Nat.eq_of_testBit_eq
  intro i
  rw [Nat.testBit_land, Nat.testBit_two_pow, Nat.testBit_two_pow_sub_one,
    Nat.zero_testBit]
  rcases eq_or_ne k i with rfl | h
  · simp
  · simp [h]

theorem exists_pow_of_land_pred (n : ℕ) :
    1 ≤ n → n &&& (n - 1) = 0 → ∃ k, n = 2 ^ k := by
  induction n using Nat.strong_induction_on with
  | _ n ih =>
    intro hn h
    rcases Nat.lt_or_ge n 2 with h2 | h2
    · exact ⟨0, by omega⟩
    · have hb : ∀ i, (n.testBit i && (n - 1).testBit i) = false := by
        intro i
        have hcongr := congrArg (fun x => Nat.testBit x i) h
        simpa [Nat.testBit_land, Nat.zero_testBit] using hcongr
      rcases Nat.even_or_odd n with he | ho
      · obtain ⟨m, hm⟩ := he
        have hm1 : 1 ≤ m := by omega
        have hdiv : n / 2 = m := by omega
        have hdiv1 : (n - 1) / 2 = m - 1 := by omega
        have hb2 : ∀ i, (m.testBit i && (m - 1).testBit i) = false := by
          intro i
          have hbit := hb (i + 1)
          rwa [Nat.testBit_succ, Nat.testBit_succ, hdiv, hdiv1] at hbit
        have hland : m &&& (m - 1) = 0 := by
          apply Nat.eq_of_testBit_eq
          intro i
          rw [Nat.testBit_land, Nat.zero_testBit]
          exact hb2 i
        obtain ⟨k, hk⟩ := ih m (by omega) hm1 hland
        exact ⟨k + 1, by rw [pow_succ]; omega⟩
      · obtain ⟨m, hm⟩ := ho
        have hm1 : 1 ≤ m := by omega
        have hdiv : n / 2 = m := by omega
        have hdiv1 : (n - 1) / 2 = m := by omega
        have hz : ∀ i, m.testBit i = false := by
          intro i
          have hbit := hb (i + 1)
          rw [Nat.testBit_succ, Nat.testBit_succ, hdiv, hdiv1] at hbit
          simpa using hbit
        have hm0 : m = 0 :=
          Nat.eq_of_testBit_eq fun i => by rw [hz i, Nat.zero_testBit]
        omega

theorem land_pred_eq_zero_iff (n : ℕ) (hn : 1 ≤ n) :
    n &&& (n - 1) = 0 ↔ ∃ k, n = 2 ^ k := by
  constructor
  · exact exists_pow_of_land_pred n hn
  · rintro ⟨k, rfl⟩
    exact pow_two_land_pred k

/-! ### Helper lemmas about `one_plus_power_of_two` -/

theorem one_plus_power_of_two_some (v : ℤ) (an : Option String) :
    one_plus_power_of_two (some v) an =
      if v < 3 ∨ Int.land (v - 1) (v - 2) ≠ 0 then
        .error
          (err_pre an ++
            "Value must be one plus a power of two (at least 3).")
      else
        .ok v := rfl

theorem int_odd_ne_two_pow (m : ℤ) (h1 : 3 ≤ m) (hodd : m % 2 = 1) :
    ¬ ∃ k : ℕ, m = 2 ^ k := by
  rintro ⟨k, rfl⟩
  rcases k with _ | k
  · norm_num at h1
  · have h2 : (2 : ℤ) ^ (k + 1) = 2 ^ k * 2 := pow_succ 2 k
    rw [h2] at hodd
    omega

theorem land_shift_iff (v : ℤ) (h3 : 3 ≤ v) :
    Int.land (v - 1) (v - 2) = 0 ↔ ∃ k : ℕ, v - 1 = 2 ^ k := by
  have hv1 : v - 1 = (((v - 1).toNat : ℕ) : ℤ) := by omega
  have hv2 : v - 2 = ((((v - 1).toNat - 1 : ℕ)) : ℤ) := by omega
  set n : ℕ := (v - 1).toNat with hndef
  have hn2 : 2 ≤ n := by omega
  have hkey : Int.land (v - 1) (v - 2) = ((n &&& (n - 1) : ℕ) : ℤ) := by
    rw [hv1, hv2, int_land_ofNat]
  rw [hkey]
  constructor
  · intro h0
    have h0n : n &&& (n - 1) = 0 := by exact_mod_cast h0
    obtain ⟨k, hk⟩ := (land_pred_eq_zero_iff n (by omega)).mp h0n
    refine ⟨k, ?_⟩
    rw [hv1, hk]
    push_cast
    ring
  · rintro ⟨k, hk⟩
    have hkn : n = 2 ^ k := by
      have hcast : (n : ℤ) = 2 ^ k := by rw [← hv1, hk]
      exact_mod_cast hcast
    have h0n := (land_pred_eq_zero_iff n (by omega)).mpr ⟨k, hkn⟩
    exact_mod_cast congrArg (fun m : ℕ => (m : ℤ)) h0n

theorem one_plus_power_of_two_ok_iff (v : ℤ) (an : Option String) :
    one_plus_power_of_two (some v) an = .ok v ↔
      3 ≤ v ∧ ∃ k : ℕ, v - 1 = 2 ^ k := by
  rw [one_plus_power_of_two_some]
  by_cases h3 : v < 3
  · rw [if_pos (Or.inl h3)]
    constructor
    · intro h
      simp at h
    · rintro ⟨hv, _⟩
      omega
  · push_neg at h3
    by_cases hl : Int.land (v - 1) (v - 2) ≠ 0
    · rw [if_pos (Or.inr hl)]
      constructor
      · intro h
        simp at h
      · rintro ⟨_, k, hk⟩
        exact absurd ((land_shift_iff v h3).mpr ⟨k, hk⟩) hl
    · push_neg at hl
      rw [if_neg (by push_neg; exact ⟨h3, hl⟩)]
      constructor
      · intro _
        exact ⟨h3, (land_shift_iff v h3).mp hl⟩
      · intro _
        rfl

theorem one_plus_power_of_two_error_of (v : ℤ) (an : Option String)
    (h : ¬(3 ≤ v ∧ ∃ k : ℕ, v - 1 = 2 ^ k)) :
    (one_plus_power_of_two (some v) an).isOk = false := by
  rw [one_plus_power_of_two_some]
  by_cases hc : v < 3 ∨ Int.land (v - 1) (v - 2) ≠ 0
  · rw [if_pos hc]
    rfl
  · push_neg at hc
    exact absurd ⟨hc.1, (land_shift_iff v hc.1).mp hc.2⟩ h

theorem int_at_least_some (mv v : ℤ) :
    int_at_least mv (some v) =
      if v < mv then
        .error ("Value must be at least " ++ toString mv ++ ".")
      else
        .ok v := rfl

theorem zero_to_one_some (v : PyFloat) :
    zero_to_one (some v) =
      if pyLt v (.finite 0) || pyGt v (.finite 1) then
        .error "Value must be between 0.0 and 1.0 inclusive."
      else
        .ok v := rfl

/-! ### Claim theorems -/

/-- C1: grid-geometry validation succeeds exactly on the valid dimensions:
for every integer input with value `v`, `one_plus_power_of_two` returns
`v` if and only if `v ≥ 3` and `v - 1` is a power of two (so 5, 9 and 17
pass), while non-integral input and non-conforming values such as 4, 6
and 2 fail. -/
theorem C1_grid_geometry_validation :
    (∀ v : ℤ, one_plus_power_of_two (some v) none = .ok v ↔
      3 ≤ v ∧ ∃ k : ℕ, v - 1 = 2 ^ k) ∧
    (∀ an : Option String, (one_plus_power_of_two none an).isOk = false) ∧
    one_plus_power_of_two (some 5) none = .ok 5 ∧
    one_plus_power_of_two (some 9) none = .ok 9 ∧
    one_plus_power_of_two (some 17) none = .ok 17 ∧
    (one_plus_power_of_two (some 4) none).isOk = false ∧
    (one_plus_power_of_two (some 6) none).isOk = false ∧
    (one_plus_power_of_two (some 2) none).isOk = false := by
  refine ⟨fun v => one_plus_power_of_two_ok_iff v none, fun an => rfl,
    ?_, ?_, ?_, ?_, ?_, ?_⟩
  · exact (one_plus_power_of_two_ok_iff 5 none).mpr
      ⟨by norm_num, 2, by norm_num⟩
  · exact (one_plus_power_of_two_ok_iff 9 none).mpr
      ⟨by norm_num, 3, by norm_num⟩
  · exact (one_plus_power_of_two_ok_iff 17 none).mpr
      ⟨by norm_num, 4, by norm_num⟩
  · refine one_plus_power_of_two_error_of 4 none ?_
    rintro ⟨-, k, hk⟩
    norm_num at hk
    exact int_odd_ne_two_pow 3 (by norm_num) (by norm_num) ⟨k, hk⟩
  · refine one_plus_power_of_two_error_of 6 none ?_
    rintro ⟨-, k, hk⟩
    norm_num at hk
    exact int_odd_ne_two_pow 5 (by norm_num) (by norm_num) ⟨k, hk⟩
  · refine one_plus_power_of_two_error_of 2 none ?_
    rintro ⟨h, -⟩
    norm_num at h

/-- C2 counterexample: a `PopulationDistribution` whose uniform id is `0`
and whose checkerboard id is `None` has exactly one variant field
populated (non-`None`), yet `validate_distribution` rejects it, refuting
"with exactly one variant populated, construction succeeds". -/
theorem C2_counterexample_zero_id :
    zeroIdDistribution.uniform_rect_distribution_id.isSome = true ∧
    zeroIdDistribution.checkerboard_rect_distribution_id.isSome = false ∧
    (Model.validate_distribution zeroIdDistribution).isOk = false :=
  ⟨rfl, rfl, rfl⟩

/-- C2 (amended): constructing a `PopulationDistribution` succeeds iff
exactly one of its two concrete variant ids is populated with a truthy
value (non-`None` and nonzero); zero truthy ids or two truthy ids fail
validation. -/
theorem C2_amended_exactly_one_truthy (d : Model.PopulationDistribution) :
    Model.validate_distribution d = .ok () ↔
      ((Model.optionIntTruthy d.uniform_rect_distribution_id = true ∧
        Model.optionIntTruthy d.checkerboard_rect_distribution_id = false) ∨
       (Model.optionIntTruthy d.uniform_rect_distribution_id = false ∧
        Model.optionIntTruthy d.checkerboard_rect_distribution_id = true)) := by
  cases hu : Model.optionIntTruthy d.uniform_rect_distribution_id <;>
    cases hc : Model.optionIntTruthy d.checkerboard_rect_distribution_id <;>
    simp [Model.validate_distribution, Model.num_set_ids, hu, hc]

/-- C2 amended witness: the validator accepts a distribution with a single
truthy id (`uniform = 1`, `checkerboard = None`). -/
theorem C2_amended_exactly_one_truthy_witness :
    Model.validate_distribution
      { id := none, uniform_rect_distribution_id := some 1,
        checkerboard_rect_distribution_id := none } = .ok () :=
  (C2_amended_exactly_one_truthy
    { id := none, uniform_rect_distribution_id := some 1,
      checkerboard_rect_distribution_id := none }).mpr
    (Or.inl ⟨by decide, by decide⟩)

/-- C3 counterexample: a checkerboard map generated per spec §4.3 on a
6×3 grid with 3×3 blocks, even per-precinct population 1000 (faction
split `[500, 500]`, equal to the configured `precinct_population` of
1000) and odd per-precinct population 500 (split `[250, 250]`), contains
the cell `(3, 0)` whose faction counts sum to 500 ≠ 1000, refuting "every
cell of every generated map sums exactly to the configured
`precinct_population`". -/
theorem C3_counterexample_checkerboard :
    ((3 : ℕ), (0 : ℕ), [(250 : ℤ), 250]) ∈
      checkerboardGenerate [500, 500] [250, 250] 3 3 6 3 ∧
    [(250 : ℤ), 250].sum ≠ 1000 := by
  decide

/-- C3 (amended): per-cell population conservation relative to the
population configured for that cell.  Generation is unimplemented in src,
so the strategies are modelled from the spec: a Uniform cell's two
faction counts sum to `precinct_population`; a finalized
Stochastic-Geographic cell's two faction counts sum to
`precinct_population`; every cell of a Checkerboard-generated map sums to
the per-precinct population configured for its block (even or odd); and
every map obtainable through `load_population_map` has an empty cell
list, so its cells conserve population vacuously. -/
theorem C3_amended_per_cell_conservation :
    (∀ (pop : ℕ) (rf : ℚ),
      (uniformCellCounts pop rf).1 + (uniformCellCounts pop rf).2 = pop) ∧
    (∀ (pop : ℕ) (m : ℤ),
      (stochasticFinalizeCell pop m).1 + (stochasticFinalizeCell pop m).2
        = pop) ∧
    (∀ (evenCounts oddCounts : List ℤ) (bw bh width height x y : ℕ)
      (counts : List ℤ),
      (x, y, counts) ∈
          checkerboardGenerate evenCounts oddCounts bw bh width height →
      counts.sum =
        checkerboardCellPopulation evenCounts.sum oddCounts.sum bw bh x y) ∧
    (∀ path : String,
      Sum.elim PopulationMap.precincts (fun _ => [])
        (load_population_map path) = []) := by
  refine ⟨fun pop rf => ?_, fun pop m => ?_, ?_, fun path => rfl⟩
  · unfold uniformCellCounts
    ring
  · unfold stochasticFinalizeCell
    ring
  · intro evenCounts oddCounts bw bh width height x y counts hmem
    simp only [checkerboardGenerate, List.mem_flatMap, List.mem_map,
      List.mem_range, Prod.mk.injEq] at hmem
    obtain ⟨y', hy', x', hx', hxx, hyy, hcc⟩ := hmem
    subst hxx
    subst hyy
    subst hcc
    unfold checkerboardCellCounts checkerboardCellPopulation
    by_cases hpar : (y' / bh + x' / bw) % 2 = 0
    · rw [if_pos hpar, if_pos hpar]
    · rw [if_neg hpar, if_neg hpar]

/-- C3 amended witness: the checkerboard conjunct applied at the concrete
even-block cell `(0, 0)` of the counterexample map. -/
theorem C3_amended_per_cell_conservation_witness :
    [(500 : ℤ), 500].sum =
      checkerboardCellPopulation [(500 : ℤ), 500].sum
        [(250 : ℤ), 250].sum 3 3 0 0 :=
  C3_amended_per_cell_conservation.2.2.1 [500, 500] [250, 250] 3 3 6 3 0 0
    [500, 500] (by decide)

/-- C4: the claim says loading fails with `MapNotFound` on an invalid
handle and `CorruptMap` on invalid stored structure; the code instead
returns the constant stub map even for a nonexistent path, never failing
(the loading logic is a `TODO` in the source). -/
theorem C4_load_returns_stub_on_invalid_handle :
    load_population_map "/no/such/file.json" =
      .inl { width := 0, height := 0, precinct_population := 0,
             precincts := [] } := rfl

/-- C5: the claim says loaded maps satisfy the same invariants as
generated ones; the code instead copies the stub map's dimensions `(0, 0)`
into the config on the load path with no validation, and `0` fails the
one-plus-a-power-of-two grid-geometry rule. -/
theorem C5_load_path_bypasses_validation :
    process_args sampleLoadConfig =
      .ok { sampleLoadConfig with
            world_width := 0
            world_height := 0
            precinct_population := 0
            precincts := some [] } ∧
    (one_plus_power_of_two (some 0) none).isOk = false := by
  refine ⟨rfl, ?_⟩
  refine one_plus_power_of_two_error_of 0 none ?_
  rintro ⟨h, -⟩
  norm_num at h

/-- C6: the Checkerboard construct-time check (modelled from the spec;
src holds only the column declarations) succeeds iff
`num_block_width * block_width = width` and
`num_block_height * block_height = height`, and in particular
`block_width = 4` on a width-9 grid fails for every block count. -/
theorem C6_checkerboard_exact_tiling :
    (∀ (w h : ℤ) (d : Model.CheckerboardRectDistribution),
      checkerboard_construct w h d = .ok d ↔
        d.num_block_width * d.block_width = w ∧
        d.num_block_height * d.block_height = h) ∧
    (∀ nbw : ℤ,
      (checkerboard_construct 9 9
        { id := none, even_precinct_population := some 1,
          odd_precinct_population := some 2, num_block_width := nbw,
          num_block_height := 3, block_width := 4,
          block_height := 3 }).isOk = false) := by
  constructor
  · intro w h d
    unfold checkerboard_construct
    by_cases hc : d.num_block_width * d.block_width ≠ w ∨
        d.num_block_height * d.block_height ≠ h
    · rw [if_pos hc]
      constructor
      · intro hcontra
        simp at hcontra
      · rintro ⟨h1, h2⟩
        rcases hc with hc | hc
        · exact absurd h1 hc
        · exact absurd h2 hc
    · push_neg at hc
      rw [if_neg (by push_neg; exact hc)]
      simp [hc.1, hc.2]
  · intro nbw
    unfold checkerboard_construct
    rw [if_pos]
    · rfl
    · left
      show nbw * 4 ≠ 9
      omega

/-- C7 counterexample: `float("nan")` parses, and both `nan < 0.0` and
`nan > 1.0` are `False` in Python, so the `geo_neighbor_weight` validator
accepts `nan` — a value that does not lie in `[0, 1]` — refuting "a
geo_neighbor_weight value is accepted if and only if it lies in
`[0, 1]`". -/
theorem C7_counterexample_nan :
    geo_neighbor_weight_validator (some PyFloat.nan) = .ok PyFloat.nan ∧
    ¬ ∃ q : ℚ, PyFloat.nan = PyFloat.finite q ∧ 0 ≤ q ∧ q ≤ 1 := by
  constructor
  · rfl
  · rintro ⟨q, hq, -⟩
    exact PyFloat.noConfusion hq

/-- C7 (amended): `int_at_least(4)` accepts an integer iff it is at least
4 and rejects unparseable input; `zero_to_one` rejects unparseable input
and accepts a parsed float exactly when neither `value < 0.0` nor
`value > 1.0` holds under Python comparison — for finite values that is
precisely the interval `[0, 1]`, but `nan` is also accepted because every
ordered comparison involving `nan` is false. -/
theorem C7_amended_geo_parameter_range_checks :
    (∀ v : ℤ, geo_random_steps_validator (some v) = .ok v ↔ 4 ≤ v) ∧
    (geo_random_steps_validator none).isOk = false ∧
    (∀ q : ℚ,
      geo_neighbor_weight_validator (some (.finite q)) = .ok (.finite q) ↔
        0 ≤ q ∧ q ≤ 1) ∧
    geo_neighbor_weight_validator (some .nan) = .ok .nan ∧
    (geo_neighbor_weight_validator none).isOk = false := by
  refine ⟨fun v => ?_, rfl, fun q => ?_, rfl, rfl⟩
  · show int_at_least 4 (some v) = .ok v ↔ 4 ≤ v
    rw [int_at_least_some]
    by_cases h : v < 4
    · rw [if_pos h]
      constructor
      · intro hc
        simp at hc
      · intro hge
        omega
    · rw [if_neg h]
      constructor
      · intro _
        omega
      · intro _
        rfl
  · show zero_to_one (some (.finite q)) = .ok (.finite q) ↔ 0 ≤ q ∧ q ≤ 1
    rw [zero_to_one_some]
    have hlt : pyLt (.finite q) (.finite 0) = decide (q < 0) := rfl
    have hgt : pyGt (.finite q) (.finite 1) = decide (q > 1) := rfl
    rw [hlt, hgt]
    by_cases h0 : q < 0
    · have hc : (decide (q < 0) || decide (q > 1)) = true := by
        simp [h0]
      rw [hc]
      constructor
      · intro hcontra
        simp at hcontra
      · rintro ⟨ha, -⟩
        exact absurd h0 (not_lt.mpr ha)
    · by_cases h1 : q > 1
      · have hc : (decide (q < 0) || decide (q > 1)) = true := by
          simp [h1]
        rw [hc]
        constructor
        · intro hcontra
          simp at hcontra
        · rintro ⟨-, hb⟩
          exact absurd h1 (not_lt.mpr hb)
      · have hc : (decide (q < 0) || decide (q > 1)) = false := by
          simp [h0, h1]
        rw [hc]
        constructor
        · intro _
          exact ⟨not_lt.mp h0, not_lt.mp h1⟩
        · intro _
          rfl

/-- C8 counterexample: the model's cell type stores coordinates as floats
with no constraint; the docstring's own placement — the center of a grid
square — gives the legal model value `centerCell` with `x = 1/2`, a cell
of the model map `centerCellMap` whose x-coordinate is not an integer,
refuting "every cell is identified by integer coordinates". -/
theorem C8_counterexample_center_cell :
    centerCell ∈ centerCellMap.faction_counts ∧
    ¬ ∃ n : ℤ, centerCell.x = (n : ℚ) := by
  constructor
  · show centerCell ∈ [centerCell]
    exact List.mem_singleton_self _
  · rintro ⟨n, hn⟩
    have hx : centerCell.x = 1 / 2 := rfl
    rw [hx] at hn
    have hn2 : (n : ℚ) = 1 / 2 := hn.symm
    have h2 : ((2 * n : ℤ) : ℚ) = 1 := by
      push_cast
      rw [hn2]
      norm_num
    have h3 : (2 * n : ℤ) = 1 := by exact_mod_cast h2
    omega

/-- C8 (amended): a precinct cell carries float (rational) coordinates
`(x, y)` on which the model imposes no integrality or grid-bounds
constraint: every coordinate pair, integral or not, occurs in a legal
model population map. -/
theorem C8_amended_float_coords_unconstrained (x y : ℚ)
    (pmid fid cnt : ℤ) :
    ∃ m : Model.PopulationMap,
      ({ x := x, y := y, population_map_id := pmid, faction_id := fid,
         count := cnt } : Model.PopulationMapCellFactionCount)
        ∈ m.faction_counts :=
  ⟨{ id := none, creation_time := 0, distribution_id := none,
     faction_counts := [{ x := x, y := y, population_map_id := pmid,
                          faction_id := fid, count := cnt }] },
    List.mem_singleton_self _⟩

/-- C8 amended witness: the amended statement instantiated at the
half-integer center coordinates. -/
theorem C8_amended_float_coords_unconstrained_witness :
    ∃ m : Model.PopulationMap,
      ({ x := 1 / 2, y := 1 / 2, population_map_id := 1, faction_id := 0,
         count := 0 } : Model.PopulationMapCellFactionCount)
        ∈ m.faction_counts :=
  C8_amended_float_coords_unconstrained (1 / 2) (1 / 2) 1 0 0

/-- C9: `validate_distribution` tests Python truthiness rather than
presence: with `uniform_rect_distribution_id = 0` and
`checkerboard_rect_distribution_id = None` — exactly one field non-`None`
— the computed `num_set_ids` is 0 and validation rejects the
distribution, because an id equal to 0 counts as not populated. -/
theorem C9_truthiness_not_presence :
    zeroIdDistribution.uniform_rect_distribution_id = some 0 ∧
    zeroIdDistribution.checkerboard_rect_distribution_id = none ∧
    Model.num_set_ids zeroIdDistribution = 0 ∧
    (Model.validate_distribution zeroIdDistribution).isOk = false :=
  ⟨rfl, rfl, rfl, rfl⟩

/-- C10: `load_population_map` is a total constant function of its path:
it returns the stub map `{width: 0, height: 0, precinct_population: 0,
precincts: []}` for every input and never reaches the error branch. -/
theorem C10_load_is_total_constant (path : String) :
    load_population_map path =
      .inl { width := 0, height := 0, precinct_population := 0,
             precincts := [] } := rfl

/-- C10 witness: the constant-stub equation instantiated at a concrete
path. -/
theorem C10_load_is_total_constant_witness :
    load_population_map "some-map.json" =
      .inl { width := 0, height := 0, precinct_population := 0,
             precincts := [] } :=
  C10_load_is_total_constant "some-map.json"
